import Mathlib

/-!
Shallow embedding of the transfer core of the `send` utility
(src/server.rs, src/client.rs, src/db.rs).

Server side: `handleFrame` models one iteration of the receiver's session
loop in `handle_connection` (server.rs): path-safety check on the decomposed
relative path, the skip / resume / finalize / send decision over the target
and staged `.tmp` file, the bounded payload copy loop, and the final
flush + rename.  The filesystem is an explicit map from paths to file sizes
(payload contents never influence control flow, only byte counts do); the
socket is modelled by the number of payload bytes it will deliver for the
current frame before the stream ends, together with a flag saying whether
the end manifests as a read error (`Err`) or as a clean EOF (`Ok(0)`).

Client side: `sendStep` models one iteration of the per-record loop in
`send_pending_files` (client.rs), and `sendRun` the whole send phase.  The
ledger (db.rs `TransferLog`) is a map from relative path to record status.
-/

namespace Send

/-- A path component as produced by Rust's `Path::components()`.
`CurDir` components (`.`) are dropped by the embedding, as Rust's
normalisation also drops non-leading ones and no claim observes them. -/
inductive Component where
  | rootDir
  | parentDir
  | normal (name : String)
deriving DecidableEq, Repr

abbrev FsPath := List Component

/-- Split a character list on `/`, like `String.splitOn "/"`. -/
def splitSlash : List Char → List Char → List (List Char)
  | [], acc => [acc.reverse]
  | c :: rest, acc =>
      if c = '/' then acc.reverse :: splitSlash rest []
      else splitSlash rest (c :: acc)

/-- One piece of a `/`-separated path string, as a component.
Empty pieces and `.` are dropped, `..` is a parent-directory component. -/
def parsePiece (p : List Char) : Option Component :=
  if p = [] then none
  else if p = ['.'] then none
  else if p = ['.', '.'] then some Component.parentDir
  else some (Component.normal (String.mk p))

/-- Decomposition of a path string into components (Rust
`PathBuf::from(s).components()`): a leading `/` yields a root component,
then the `/`-separated pieces. -/
def components (s : String) : FsPath :=
  (if s.data.head? = some '/' then [Component.rootDir] else []) ++
    (splitSlash s.data []).filterMap parsePiece

/-- The receiver's path-safety test (server.rs:57-59): does the decomposed
path contain a parent-directory component? -/
def hasParentDir (p : FsPath) : Bool :=
  p.any (fun c => c = Component.parentDir)

/-- Rust `Path::is_absolute` on Unix: the string starts with `/`. -/
def isAbsolute (s : String) : Bool := s.data.head? = some '/'

/-- Rust `base.join(p)` (server.rs:77): appending an absolute path replaces
the base entirely. -/
def joinPath (base : FsPath) (s : String) : FsPath :=
  if isAbsolute s then components s else base ++ components s

/-- Rust `Path::file_name`: the last component if it is a normal name. -/
def fileName (p : FsPath) : Option String :=
  match p.getLast? with
  | some (Component.normal n) => some n
  | _ => none

/-- The staged temp path (server.rs:100-103):
`target.with_file_name(file_name + ".tmp")`; `none` models the
`file_name().unwrap()` panic when the target has no final normal
component. -/
def tempOf (target : FsPath) : Option FsPath :=
  (fileName target).map
    (fun n => target.dropLast ++ [Component.normal (n ++ ".tmp")])

/-- Is `p` inside the directory tree rooted at `base` (is `base` an
initial segment of `p`)? -/
def isUnder : FsPath → FsPath → Bool
  | [], _ => true
  | _ :: _, [] => false
  | b :: bs, c :: cs => b = c && isUnder bs cs

/- ## Filesystem state -/

/-- Association-list lookup of a file entry. -/
def lookupEntry : List (FsPath × Nat) → FsPath → Option Nat
  | [], _ => none
  | (q, n) :: rest, p => if q = p then some n else lookupEntry rest p

/-- Insert or replace a file entry. -/
def setEntry : List (FsPath × Nat) → FsPath → Nat → List (FsPath × Nat)
  | [], p, n => [(p, n)]
  | (q, m) :: rest, p, n =>
      if q = p then (p, n) :: rest else (q, m) :: setEntry rest p n

/-- Remove a file entry. -/
def removeEntry : List (FsPath × Nat) → FsPath → List (FsPath × Nat)
  | [], _ => []
  | (q, m) :: rest, p =>
      if q = p then rest else (q, m) :: removeEntry rest p

/-- Receiver-side filesystem: regular files (path to byte size — only
sizes drive the receiver's control flow) and created directories. -/
structure Fs where
  files : List (FsPath × Nat)
  dirs : List FsPath
deriving DecidableEq, Repr

def Fs.lookup (fs : Fs) (p : FsPath) : Option Nat := lookupEntry fs.files p

def Fs.setFile (fs : Fs) (p : FsPath) (n : Nat) : Fs :=
  { fs with files := setEntry fs.files p n }

def Fs.removeFile (fs : Fs) (p : FsPath) : Fs :=
  { fs with files := removeEntry fs.files p }

/-- `fs::create_dir_all`: record the created directory. -/
def Fs.mkdir (fs : Fs) (p : FsPath) : Fs :=
  { fs with dirs := p :: fs.dirs }

/-- `fs::rename src dst`: move the file entry, replacing `dst` if present. -/
def Fs.rename (fs : Fs) (src dst : FsPath) : Fs :=
  match fs.lookup src with
  | some n => (fs.removeFile src).setFile dst n
  | none => fs

/- ## Protocol messages (protocol.rs) -/

structure FileMetadata where
  relative_path : String
  size : Nat
  is_dir : Bool
deriving DecidableEq, Repr

inductive ServerResponse where
  | send
  | skip
  | resume (offset : Nat)
  | error (message : String)
deriving DecidableEq, Repr

/- ## Receiver: one session-loop iteration (server.rs `handle_connection`) -/

/-- Outcome of handling one metadata frame: the response emitted, the
filesystem after the frame, how many payload bytes were consumed, and
whether the handler returned an error (ending the session with `Err`). -/
structure FrameOut where
  resp : ServerResponse
  fs : Fs
  consumed : Nat
  sessionErr : Bool
deriving DecidableEq, Repr

/-- The payload copy loop and finalization (server.rs:140-169).  The
socket delivers `avail` payload bytes for this frame before the stream
ends; `readErr` tells whether the end is a read error (`Err`, which
propagates out of the handler leaving the temp file in place) or a clean
EOF (`Ok(0)`, which merely breaks the loop — the flush and the rename
temp→target then run unconditionally). -/
def receive (fs : Fs) (temp target : FsPath) (offset size avail : Nat)
    (readErr : Bool) (resp : ServerResponse) : FrameOut :=
  let remaining := size - offset
  let got := min remaining avail
  let fs2 := fs.setFile temp (offset + got)
  if got < remaining && readErr then
    { resp := resp, fs := fs2, consumed := got, sessionErr := true }
  else
    { resp := resp, fs := fs2.rename temp target, consumed := got,
      sessionErr := false }

/-- One iteration of the receiver session loop (server.rs:54-172), from a
decoded metadata frame.  Returns `none` exactly where the code panics
(`file_name().unwrap()` on a target with no final normal component). -/
def handleFrame (base : FsPath) (fs : Fs) (meta : FileMetadata)
    (avail : Nat) (readErr : Bool) : Option FrameOut :=
  if hasParentDir (components meta.relative_path) then
    some { resp := ServerResponse.error "Invalid path", fs := fs,
           consumed := 0, sessionErr := false }
  else
    let target := joinPath base meta.relative_path
    if meta.is_dir then
      some { resp := ServerResponse.skip, fs := fs.mkdir target,
             consumed := 0, sessionErr := false }
    else
      if fs.lookup target = some meta.size then
        some { resp := ServerResponse.skip, fs := fs, consumed := 0,
               sessionErr := false }
      else
        match tempOf target with
        | none => none
        | some temp =>
          let od : Nat × Fs := match fs.lookup temp with
            | some t =>
                if meta.size < t then (0, fs.setFile temp 0) else (t, fs)
            | none => (0, (fs.mkdir temp.dropLast).setFile temp 0)
          let offset := od.1
          let fs1 := od.2
          if 0 < offset && offset < meta.size then
            some (receive fs1 temp target offset meta.size avail readErr
              (ServerResponse.resume offset))
          else if meta.size ≤ offset then
            some { resp := ServerResponse.skip, fs := fs1.rename temp target,
                   consumed := 0, sessionErr := false }
          else
            some (receive fs1 temp target 0 meta.size avail readErr
              ServerResponse.send)

/-- The receiver's per-file response as a function of the target size, the
temp size and the declared size, extracted from the branch structure of
`handle_connection` (server.rs:86-137).  This is the *corrected* decision
table. -/
def decideResponse (targetSz tempSz : Option Nat) (size : Nat) :
    ServerResponse :=
  if targetSz = some size then ServerResponse.skip
  else
    let offset := match tempSz with
      | some t => if size < t then 0 else t
      | none => 0
    if 0 < offset && offset < size then ServerResponse.resume offset
    else if size ≤ offset then ServerResponse.skip
    else ServerResponse.send

/- ## Sender-side ledger (db.rs `TransferLog`) -/

/-- A ledger record's status (db.rs `files.status`). -/
inductive Status where
  | pending
  | sent
  | skipped
deriving DecidableEq, Repr

/-- The per-transfer ledger: relative path to status; `none` means no row.
Relative paths are UNIQUE in the `files` table, so a map is faithful. -/
def Ledger := String → Option Status

/-- `TransferLog::mark_sent`: SQL UPDATE by relative path (a no-op when the
row is absent). -/
def markSent (l : Ledger) (p : String) : Ledger :=
  fun q => if q = p then (l q).map (fun _ => Status.sent) else l q

/-- `TransferLog::mark_skipped`: SQL UPDATE by relative path. -/
def markSkipped (l : Ledger) (p : String) : Ledger :=
  fun q => if q = p then (l q).map (fun _ => Status.skipped) else l q

/-- `TransferLog::reset`: DELETE all rows (used only by the Restart verb). -/
def resetLedger : Ledger := fun _ => none

/-- `TransferLog::add_file`: INSERT OR IGNORE with status Pending. -/
def addFile (l : Ledger) (p : String) : Ledger :=
  fun q => if q = p then (match l q with
    | some s => some s
    | none => some Status.pending) else l q

/- ## Sender: one loop iteration of `send_pending_files` (client.rs) -/

/-- A pending ledger row as read by `get_pending_files` (db.rs). -/
structure FileRecord where
  relative_path : String
  size : Nat
  is_dir : Bool
deriving DecidableEq, Repr

/-- The environment one record meets during the send phase: whether an
exclude pattern matches its relative path, the current on-disk size of the
absolute source file (`none` if the file no longer exists), and the
receiver's response to its metadata frame. -/
structure RecEnv where
  excluded : Bool
  onDisk : Option Nat
  response : ServerResponse
deriving DecidableEq, Repr

inductive ClientError where
  | fileChanged (path : String)
  | serverError (message : String)
deriving DecidableEq, Repr

/-- Outcome of one iteration of the sender's record loop: ledger after the
step, payload bytes streamed for the record, whether any network traffic
happened for the record, and the error if the iteration aborted the
transfer (`return Err`). -/
structure StepOut where
  ledger : Ledger
  sentBytes : Nat
  network : Bool
  err : Option ClientError

/-- One iteration of the per-record loop of `send_pending_files`
(client.rs:122-383).  In order: the exclude-pattern check marks Skipped
with no network traffic; a missing source file logs a warning and merely
continues (no ledger mutation); otherwise the metadata frame is sent and
the response dispatched.  `Skip` marks Skipped (file) or Sent (dir).
`Send` verifies the current size against the ledger size, aborting with
FileChanged on drift, else streams all `size` bytes and marks Sent.
`Resume{offset}` seeks and streams until `size - offset` bytes are sent or
the file hits EOF, then marks Sent without any size verification.
`Error` aborts. -/
def sendStep (l : Ledger) (r : FileRecord) (env : RecEnv) : StepOut :=
  if env.excluded then
    { ledger := markSkipped l r.relative_path, sentBytes := 0,
      network := false, err := none }
  else
    match env.onDisk with
    | none =>
        { ledger := l, sentBytes := 0, network := false, err := none }
    | some curLen =>
      match env.response with
      | ServerResponse.skip =>
          if r.is_dir then
            { ledger := markSent l r.relative_path, sentBytes := 0,
              network := true, err := none }
          else
            { ledger := markSkipped l r.relative_path, sentBytes := 0,
              network := true, err := none }
      | ServerResponse.send =>
          if r.is_dir then
            { ledger := markSent l r.relative_path, sentBytes := 0,
              network := true, err := none }
          else if curLen ≠ r.size then
            { ledger := l, sentBytes := 0, network := true,
              err := some (ClientError.fileChanged r.relative_path) }
          else
            { ledger := markSent l r.relative_path, sentBytes := r.size,
              network := true, err := none }
      | ServerResponse.resume offset =>
          if r.is_dir then
            { ledger := markSent l r.relative_path, sentBytes := 0,
              network := true, err := none }
          else
            { ledger := markSent l r.relative_path,
              sentBytes := min (r.size - offset) (curLen - offset),
              network := true, err := none }
      | ServerResponse.error m =>
          { ledger := l, sentBytes := 0, network := true,
            err := some (ClientError.serverError m) }

/-- Outcome of the whole send phase. -/
structure RunOut where
  ledger : Ledger
  err : Option ClientError

/-- The send phase: fold `sendStep` over the pending records, stopping at
the first aborting iteration (client.rs:122-383). -/
def sendRun (l : Ledger) : List (FileRecord × RecEnv) → RunOut
  | [] => { ledger := l, err := none }
  | (r, env) :: rest =>
      let out := sendStep l r env
      match out.err with
      | some e => { ledger := out.ledger, err := some e }
      | none => sendRun out.ledger rest

/- ## Helper lemmas -/

theorem lookupEntry_setEntry (es : List (FsPath × Nat)) (p q : FsPath)
    (n : Nat) :
    lookupEntry (setEntry es p n) q =
      if p = q then some n else lookupEntry es q := by
  induction es with
  | nil => by_cases h : p = q <;> simp [setEntry, lookupEntry, h]
  | cons e rest ih =>
      obtain ⟨k, m⟩ := e
      by_cases hk : k = p
      · subst hk
        by_cases h : k = q <;> simp [setEntry, lookupEntry, h]
      · by_cases h : k = q
        · subst h
          have hpk : ¬p = k := fun hh => hk hh.symm
          simp [setEntry, lookupEntry, hk, hpk]
        · simp [setEntry, lookupEntry, hk, h, ih]

theorem removeEntry_setEntry_of_absent (es : List (FsPath × Nat))
    (p : FsPath) (n : Nat) (h : lookupEntry es p = none) :
    removeEntry (setEntry es p n) p = es := by
  induction es with
  | nil => simp [setEntry, removeEntry]
  | cons e rest ih =>
      obtain ⟨k, m⟩ := e
      by_cases hk : k = p
      · simp [lookupEntry, hk] at h
      · simp only [lookupEntry, hk, if_false] at h
        simp [setEntry, removeEntry, hk, ih h]

theorem Fs.lookup_setFile (fs : Fs) (p q : FsPath) (n : Nat) :
    (fs.setFile p n).lookup q = if p = q then some n else fs.lookup q :=
  lookupEntry_setEntry fs.files p q n

theorem Fs.lookup_mkdir (fs : Fs) (d q : FsPath) :
    (fs.mkdir d).lookup q = fs.lookup q := rfl

theorem receive_resp (fs : Fs) (temp target : FsPath)
    (offset size avail : Nat) (readErr : Bool) (resp : ServerResponse) :
    (receive fs temp target offset size avail readErr resp).resp = resp := by
  unfold receive
  dsimp only
  split <;> rfl

theorem tempOf_ne (target temp : FsPath) (h : tempOf target = some temp) :
    temp ≠ target := by
  unfold tempOf fileName at h
  cases hg : target.getLast? with
  | none => rw [hg] at h; simp at h
  | some c =>
      rw [hg] at h
      cases c with
      | rootDir => simp at h
      | parentDir => simp at h
      | normal nm =>
          simp only [Option.map_some'] at h
          injection h with h
          intro heq
          have htl : temp.getLast? = some (Component.normal (nm ++ ".tmp")) := by
            rw [← h]
            exact List.getLast?_concat _
          rw [heq, hg] at htl
          injection htl with h1
          injection h1 with h2
          have hlen := congrArg String.length h2
          rw [String.length_append] at hlen
          have h4 : (".tmp" : String).length = 4 := by decide
          omega

theorem markSent_apply_ne (l : Ledger) (p q : String) (h : q ≠ p) :
    markSent l p q = l q := by simp [markSent, h]

theorem markSkipped_apply_ne (l : Ledger) (p q : String) (h : q ≠ p) :
    markSkipped l p q = l q := by simp [markSkipped, h]

theorem markSent_apply_self (l : Ledger) (p : String) :
    markSent l p p = (l p).map (fun _ => Status.sent) := by simp [markSent]

theorem markSkipped_apply_self (l : Ledger) (p : String) :
    markSkipped l p p = (l p).map (fun _ => Status.skipped) := by
  simp [markSkipped]

theorem sendStep_ledger_eq (l : Ledger) (r : FileRecord) (env : RecEnv) :
    (sendStep l r env).ledger = l ∨
    (sendStep l r env).ledger = markSent l r.relative_path ∨
    (sendStep l r env).ledger = markSkipped l r.relative_path := by
  rcases env with ⟨exc, od, resp⟩
  cases exc
  · cases od with
    | none => simp [sendStep]
    | some c =>
        cases resp with
        | send =>
            by_cases hd : r.is_dir <;> by_cases hc : c ≠ r.size <;>
              simp [sendStep, hd, hc]
        | skip => by_cases hd : r.is_dir <;> simp [sendStep, hd]
        | resume o => by_cases hd : r.is_dir <;> simp [sendStep, hd]
        | error m => simp [sendStep]
  · simp [sendStep]

/- ## Claim theorems -/

/-- C1: the claim says that when the session ends (socket closed / read
EOF) before the full declared byte count arrived, the receiver keeps the
partial `.tmp` file and never renames it to the target.  Evaluating the
receiver at the failing input — declared size 5, socket delivering only 3
bytes and then closing cleanly (EOF) — shows the code break out of the
copy loop and rename the 3-byte partial temp to the target name anyway
(left triple: target holds 3 bytes, temp gone, no session error).  Only a
read *error* (right triple) retains the temp un-renamed as claimed. -/
theorem receiver_eof_renames_partial :
    ((handleFrame [Component.normal "out"] ⟨[], []⟩ ⟨"a.txt", 5, false⟩
        3 false).map
      (fun o => (o.fs.lookup [Component.normal "out", Component.normal "a.txt"],
                 o.fs.lookup [Component.normal "out", Component.normal "a.txt.tmp"],
                 o.sessionErr))
      = some (some 3, none, false)) ∧
    ((handleFrame [Component.normal "out"] ⟨[], []⟩ ⟨"a.txt", 5, false⟩
        3 true).map
      (fun o => (o.fs.lookup [Component.normal "out", Component.normal "a.txt"],
                 o.fs.lookup [Component.normal "out", Component.normal "a.txt.tmp"],
                 o.sessionErr))
      = some (none, some 3, true)) := by decide

/-- C3: a metadata frame whose decomposed relative path contains a
parent-directory component is answered with `Error{"Invalid path"}`, the
session continues (no error), no payload is consumed, and the filesystem
is completely untouched — hence no write outside the base directory. -/
theorem parent_component_rejected (base : FsPath) (fs : Fs)
    (meta : FileMetadata) (avail : Nat) (readErr : Bool)
    (h : hasParentDir (components meta.relative_path) = true) :
    handleFrame base fs meta avail readErr =
      some { resp := ServerResponse.error "Invalid path", fs := fs,
             consumed := 0, sessionErr := false } := by
  simp [handleFrame, h]

/-- Witness for C3 at the concrete frame `"../evil"`. -/
theorem parent_component_rejected_witness :
    hasParentDir (components "../evil") = true ∧
    handleFrame [Component.normal "out"] ⟨[], []⟩ ⟨"../evil", 7, false⟩
        7 false =
      some { resp := ServerResponse.error "Invalid path", fs := ⟨[], []⟩,
             consumed := 0, sessionErr := false } :=
  ⟨by decide, parent_component_rejected _ _ _ _ _ (by decide)⟩

/-- C4: the claim says absolute `relative_path`s are rejected.  Evaluating
the receiver at `"/etc/passwd"` shows the opposite: the frame passes the
`..` check, `base.join` replaces the base with the absolute path, the
response is `Send` (not `Error`), and a 1-byte file is written at
`/etc/passwd` — a path that is not under the base directory `out`. -/
theorem absolute_path_not_rejected :
    ((handleFrame [Component.normal "out"] ⟨[], []⟩ ⟨"/etc/passwd", 1, false⟩
        1 false).map
      (fun o => (o.resp,
        o.fs.lookup [Component.rootDir, Component.normal "etc",
          Component.normal "passwd"]))
      = some (ServerResponse.send, some 1)) ∧
    joinPath [Component.normal "out"] "/etc/passwd" =
      [Component.rootDir, Component.normal "etc", Component.normal "passwd"] ∧
    isUnder [Component.normal "out"]
      [Component.rootDir, Component.normal "etc", Component.normal "passwd"]
      = false := by decide

/-- C2 counterexample: the claimed decision table says that when the temp
file exists with size ≥ the declared size the receiver finalizes and
responds `Skip`.  At temp size 5 and declared size 3 the code instead
truncates the temp and responds `Send`. -/
theorem decision_table_counterexample :
    (handleFrame [Component.normal "out"]
        ⟨[([Component.normal "out", Component.normal "a.txt.tmp"], 5)], []⟩
        ⟨"a.txt", 3, false⟩ 3 false).map FrameOut.resp
      = some ServerResponse.send ∧
    ServerResponse.send ≠ ServerResponse.skip := by decide

/-- C6 counterexample: for an empty (size 0) source file with no
pre-existing target or temp, the claim says the receiver responds `Send`.
The code instead creates the empty temp, immediately finalizes it
(`offset ≥ size` branch) and responds `Skip` — the rename does occur and
zero payload bytes are consumed, but the response is not `Send`. -/
theorem empty_file_response_not_send :
    (handleFrame [Component.normal "out"] ⟨[], []⟩ ⟨"a.txt", 0, false⟩
        0 false).map
      (fun o => (o.resp,
                 o.fs.lookup [Component.normal "out", Component.normal "a.txt"],
                 o.consumed))
      = some (ServerResponse.skip, some 0, 0) ∧
    ServerResponse.skip ≠ ServerResponse.send := by decide

/-- C5 counterexample: the claim says a pending record whose source file
vanished is marked `Skipped`.  The code only logs a warning and continues:
the ledger row is left untouched, still `Pending`. -/
theorem missing_file_not_marked_skipped :
    (sendStep (fun q => if q = "a.txt" then some Status.pending else none)
        ⟨"a.txt", 5, false⟩ ⟨false, none, ServerResponse.skip⟩).ledger "a.txt"
      = some Status.pending ∧
    some Status.pending ≠ some Status.skipped := by decide

/-- C5 (amended): when the record is not excluded and its source file no
longer exists, the sender logs a warning and continues with the next
record: no network traffic, no abort — and no ledger mutation at all, so
the record remains `Pending`. -/
theorem missing_file_continues_unchanged (l : Ledger) (r : FileRecord)
    (env : RecEnv) (hexc : env.excluded = false) (hmiss : env.onDisk = none) :
    sendStep l r env =
      { ledger := l, sentBytes := 0, network := false, err := none } := by
  simp [sendStep, hexc, hmiss]

/-- Witness for the amended C5 at a concrete pending record. -/
theorem missing_file_continues_unchanged_witness :
    (⟨false, none, ServerResponse.skip⟩ : RecEnv).excluded = false ∧
    (⟨false, none, ServerResponse.skip⟩ : RecEnv).onDisk = none ∧
    sendStep (fun _ => some Status.pending) ⟨"a.txt", 5, false⟩
        ⟨false, none, ServerResponse.skip⟩ =
      { ledger := fun _ => some Status.pending, sentBytes := 0,
        network := false, err := none } :=
  ⟨rfl, rfl, missing_file_continues_unchanged _ _ _ rfl rfl⟩

/-- C8: on a `Send` response for a regular file whose current on-disk size
differs from the ledger size, the sender aborts the transfer with a
FileChanged error for that relative path, sends no payload, and performs
no ledger mutation — the record stays exactly as it was (Pending). -/
theorem send_size_drift_aborts (l : Ledger) (r : FileRecord) (env : RecEnv)
    (curLen : Nat) (hexc : env.excluded = false)
    (hdisk : env.onDisk = some curLen) (hdir : r.is_dir = false)
    (hresp : env.response = ServerResponse.send) (hne : curLen ≠ r.size) :
    (sendStep l r env).err =
        some (ClientError.fileChanged r.relative_path) ∧
    (sendStep l r env).ledger = l ∧
    (sendStep l r env).sentBytes = 0 := by
  simp [sendStep, hexc, hdisk, hdir, hresp, hne]

/-- Witness for C8: ledger size 5, on-disk size 7. -/
theorem send_size_drift_aborts_witness :
    (⟨false, some 7, ServerResponse.send⟩ : RecEnv).excluded = false ∧
    (⟨false, some 7, ServerResponse.send⟩ : RecEnv).onDisk = some 7 ∧
    (⟨"a.txt", 5, false⟩ : FileRecord).is_dir = false ∧
    (⟨false, some 7, ServerResponse.send⟩ : RecEnv).response =
      ServerResponse.send ∧
    (7 : Nat) ≠ 5 ∧
    ((sendStep (fun _ => some Status.pending) ⟨"a.txt", 5, false⟩
        ⟨false, some 7, ServerResponse.send⟩).err =
      some (ClientError.fileChanged "a.txt") ∧
    (sendStep (fun _ => some Status.pending) ⟨"a.txt", 5, false⟩
        ⟨false, some 7, ServerResponse.send⟩).ledger =
      (fun _ => some Status.pending) ∧
    (sendStep (fun _ => some Status.pending) ⟨"a.txt", 5, false⟩
        ⟨false, some 7, ServerResponse.send⟩).sentBytes = 0) :=
  ⟨rfl, rfl, rfl, rfl, by decide,
    send_size_drift_aborts _ _ _ 7 rfl rfl rfl rfl (by decide)⟩

/-- C2 (amended): for every regular-file frame that passes the path check,
the receiver emits exactly one response before consuming any payload
bytes, determined by `decideResponse`: `Skip` when the target exists with
the declared size; `Resume{offset = size(temp)}` when the temp exists with
`0 < size(temp) < size`; finalize (rename temp→target) and `Skip` when the
temp exists with size *equal* to the declared size, or when the declared
size is 0 (the freshly created or truncated temp is immediately renamed);
`Send` otherwise — in particular a temp *larger* than the declared size is
truncated and answered with `Send`, not finalized. -/
theorem handleFrame_response_characterization (base : FsPath) (fs : Fs)
    (meta : FileMetadata) (avail : Nat) (readErr : Bool) (temp : FsPath)
    (hdir : meta.is_dir = false)
    (hsafe : hasParentDir (components meta.relative_path) = false)
    (htemp : tempOf (joinPath base meta.relative_path) = some temp) :
    (handleFrame base fs meta avail readErr).map FrameOut.resp =
      some (decideResponse (fs.lookup (joinPath base meta.relative_path))
        (fs.lookup temp) meta.size) := by
  by_cases h1 : fs.lookup (joinPath base meta.relative_path) = some meta.size
  · simp [handleFrame, decideResponse, hsafe, hdir, h1]
  · cases h2 : fs.lookup temp with
    | none =>
        by_cases h3 : meta.size = 0
        · have h0 : fs.lookup (joinPath base meta.relative_path) ≠ some 0 := by
            rw [← h3]; exact h1
          simp [handleFrame, decideResponse, hsafe, hdir, htemp, h1, h2, h3,
            h0]
        · simp [handleFrame, decideResponse, hsafe, hdir, htemp, h1, h2,
            Nat.le_zero, h3, receive_resp]
    | some t =>
        by_cases h4 : meta.size < t
        · by_cases h3 : meta.size = 0
          · have h0 : fs.lookup (joinPath base meta.relative_path) ≠ some 0 := by
              rw [← h3]; exact h1
            have h4' : 0 < t := h3 ▸ h4
            simp [handleFrame, decideResponse, hsafe, hdir, htemp, h1, h2,
              h3, h4, h4', h0]
          · simp [handleFrame, decideResponse, hsafe, hdir, htemp, h1, h2,
              h4, Nat.le_zero, h3, receive_resp]
        · by_cases h5 : 0 < t
          · by_cases h6 : t < meta.size
            · simp [handleFrame, decideResponse, hsafe, hdir, htemp, h1, h2,
                h4, h5, h6, receive_resp]
            · simp [handleFrame, decideResponse, hsafe, hdir, htemp, h1, h2,
                h4, h5, h6, Nat.le_of_not_lt h6, receive_resp]
          · have ht0 : t = 0 := Nat.eq_zero_of_not_pos h5
            by_cases h3 : meta.size = 0
            · have h0 : fs.lookup (joinPath base meta.relative_path) ≠ some 0 := by
                rw [← h3]; exact h1
              simp [handleFrame, decideResponse, hsafe, hdir, htemp, h1, h2,
                ht0, h3, h0]
            · simp [handleFrame, decideResponse, hsafe, hdir, htemp, h1, h2,
                ht0, Nat.le_zero, h3, receive_resp]

/-- Witness for the amended C2: temp of size 2 with declared size 5 gives
`Resume{2}`. -/
theorem handleFrame_response_characterization_witness :
    (⟨"a.txt", 5, false⟩ : FileMetadata).is_dir = false ∧
    hasParentDir (components "a.txt") = false ∧
    tempOf (joinPath [Component.normal "out"] "a.txt") =
      some [Component.normal "out", Component.normal "a.txt.tmp"] ∧
    (handleFrame [Component.normal "out"]
        ⟨[([Component.normal "out", Component.normal "a.txt.tmp"], 2)], []⟩
        ⟨"a.txt", 5, false⟩ 9 false).map FrameOut.resp =
      some (decideResponse
        ((⟨[([Component.normal "out", Component.normal "a.txt.tmp"], 2)], []⟩ : Fs).lookup
          (joinPath [Component.normal "out"] "a.txt"))
        ((⟨[([Component.normal "out", Component.normal "a.txt.tmp"], 2)], []⟩ : Fs).lookup
          [Component.normal "out", Component.normal "a.txt.tmp"])
        5) :=
  ⟨rfl, by decide, by decide,
    handleFrame_response_characterization _ _ _ _ _ _ rfl (by decide)
      (by decide)⟩

/-- C6 (amended): for an empty (size 0) regular source file with no
pre-existing target or temp on the receiver, the receiver creates the
empty temp, responds `Skip` (not `Send`), consumes zero payload bytes,
and the atomic rename of the temp to the target still occurs (the target
exists with size 0 and the temp is gone). -/
theorem empty_file_finalized_skip (base : FsPath) (fs : Fs)
    (meta : FileMetadata) (avail : Nat) (readErr : Bool) (temp : FsPath)
    (hdir : meta.is_dir = false)
    (hsafe : hasParentDir (components meta.relative_path) = false)
    (hsize : meta.size = 0)
    (htemp : tempOf (joinPath base meta.relative_path) = some temp)
    (htgt : fs.lookup (joinPath base meta.relative_path) = none)
    (htmp : fs.lookup temp = none) :
    ∃ out, handleFrame base fs meta avail readErr = some out ∧
      out.resp = ServerResponse.skip ∧ out.consumed = 0 ∧
      out.sessionErr = false ∧
      out.fs.lookup (joinPath base meta.relative_path) = some 0 ∧
      out.fs.lookup temp = none := by
  have hne : temp ≠ joinPath base meta.relative_path := tempOf_ne _ _ htemp
  have hmain : handleFrame base fs meta avail readErr =
      some { resp := ServerResponse.skip,
             fs := (((fs.mkdir temp.dropLast).setFile temp 0).removeFile
                 temp).setFile (joinPath base meta.relative_path) 0,
             consumed := 0, sessionErr := false } := by
    simp [handleFrame, hsafe, hdir, htemp, htgt, htmp, hsize, Fs.rename,
      Fs.lookup_setFile]
  refine ⟨_, hmain, rfl, rfl, rfl, ?_, ?_⟩
  · rw [Fs.lookup_setFile]
    simp
  · rw [Fs.lookup_setFile, if_neg (fun hh => hne hh.symm)]
    show lookupEntry (removeEntry (setEntry fs.files temp 0) temp) temp = none
    rw [removeEntry_setEntry_of_absent _ _ _ htmp]
    exact htmp

/-- Witness for the amended C6 at a fresh receiver and an empty file. -/
theorem empty_file_finalized_skip_witness :
    (⟨"a.txt", 0, false⟩ : FileMetadata).is_dir = false ∧
    hasParentDir (components "a.txt") = false ∧
    (⟨"a.txt", 0, false⟩ : FileMetadata).size = 0 ∧
    tempOf (joinPath [Component.normal "out"] "a.txt") =
      some [Component.normal "out", Component.normal "a.txt.tmp"] ∧
    (⟨[], []⟩ : Fs).lookup (joinPath [Component.normal "out"] "a.txt") = none ∧
    (⟨[], []⟩ : Fs).lookup [Component.normal "out", Component.normal "a.txt.tmp"]
      = none ∧
    ∃ out, handleFrame [Component.normal "out"] ⟨[], []⟩ ⟨"a.txt", 0, false⟩
        4 false = some out ∧
      out.resp = ServerResponse.skip ∧ out.consumed = 0 ∧
      out.sessionErr = false ∧
      out.fs.lookup (joinPath [Component.normal "out"] "a.txt") = some 0 ∧
      out.fs.lookup [Component.normal "out", Component.normal "a.txt.tmp"]
        = none :=
  ⟨rfl, by decide, rfl, by decide, by decide, by decide,
    empty_file_finalized_skip _ _ _ _ _ _ rfl (by decide) rfl (by decide)
      (by decide) (by decide)⟩

/-- C7: when the temp file exists with a size strictly larger than the
declared size, the receiver discards the temp's contents (truncates it to
0 bytes) and restarts the transfer from offset 0 — the frame behaves
exactly as if the temp had size 0 — and, for a nonempty declared size,
answers `Send` rather than finalizing the oversize temp. -/
theorem oversize_temp_discarded (base : FsPath) (fs : Fs)
    (meta : FileMetadata) (avail : Nat) (readErr : Bool) (temp : FsPath)
    (t : Nat) (hdir : meta.is_dir = false)
    (hsafe : hasParentDir (components meta.relative_path) = false)
    (htemp : tempOf (joinPath base meta.relative_path) = some temp)
    (htgt : fs.lookup (joinPath base meta.relative_path) ≠ some meta.size)
    (htmp : fs.lookup temp = some t) (hbig : meta.size < t) :
    handleFrame base fs meta avail readErr =
      handleFrame base (fs.setFile temp 0) meta avail readErr ∧
    (0 < meta.size →
      (handleFrame base fs meta avail readErr).map FrameOut.resp =
        some ServerResponse.send) := by
  have hne : temp ≠ joinPath base meta.relative_path := tempOf_ne _ _ htemp
  have htgt2 : (fs.setFile temp 0).lookup (joinPath base meta.relative_path)
      = fs.lookup (joinPath base meta.relative_path) := by
    rw [Fs.lookup_setFile, if_neg hne]
  constructor
  · simp [handleFrame, hsafe, hdir, htemp, htmp, hbig, htgt, htgt2,
      Fs.lookup_setFile]
  · intro hpos
    simp [handleFrame, hsafe, hdir, htemp, htmp, hbig, htgt, receive_resp,
      hpos, Nat.pos_iff_ne_zero.mp hpos]

/-- Witness for C7: temp of size 5, declared size 3. -/
theorem oversize_temp_discarded_witness :
    (⟨"a.txt", 3, false⟩ : FileMetadata).is_dir = false ∧
    hasParentDir (components "a.txt") = false ∧
    tempOf (joinPath [Component.normal "out"] "a.txt") =
      some [Component.normal "out", Component.normal "a.txt.tmp"] ∧
    (⟨[([Component.normal "out", Component.normal "a.txt.tmp"], 5)], []⟩ : Fs).lookup
        (joinPath [Component.normal "out"] "a.txt") ≠ some 3 ∧
    (⟨[([Component.normal "out", Component.normal "a.txt.tmp"], 5)], []⟩ : Fs).lookup
        [Component.normal "out", Component.normal "a.txt.tmp"] = some 5 ∧
    (3 : Nat) < 5 ∧
    (handleFrame [Component.normal "out"]
        ⟨[([Component.normal "out", Component.normal "a.txt.tmp"], 5)], []⟩
        ⟨"a.txt", 3, false⟩ 3 false =
      handleFrame [Component.normal "out"]
        ((⟨[([Component.normal "out", Component.normal "a.txt.tmp"], 5)], []⟩ : Fs).setFile
          [Component.normal "out", Component.normal "a.txt.tmp"] 0)
        ⟨"a.txt", 3, false⟩ 3 false ∧
    ((0 : Nat) < 3 →
      (handleFrame [Component.normal "out"]
          ⟨[([Component.normal "out", Component.normal "a.txt.tmp"], 5)], []⟩
          ⟨"a.txt", 3, false⟩ 3 false).map FrameOut.resp =
        some ServerResponse.send)) :=
  ⟨rfl, by decide, by decide, by decide, by decide, by decide,
    oversize_temp_discarded _ _ _ _ _ _ 5 rfl (by decide) (by decide)
      (by decide) (by decide) (by decide)⟩

/-- C10: on a `Resume{offset}` response for a regular file the sender
performs no size verification (unlike the `Send` branch): even when the
current file size `curLen` is smaller than the ledger size, it streams
only up to EOF (`curLen - offset` bytes instead of `size - offset`), then
marks the record `Sent` with no error. -/
theorem resume_no_size_check_marks_sent (l : Ledger) (r : FileRecord)
    (env : RecEnv) (curLen off : Nat) (hexc : env.excluded = false)
    (hdisk : env.onDisk = some curLen) (hdir : r.is_dir = false)
    (hresp : env.response = ServerResponse.resume off)
    (hoff : off ≤ curLen) (hshort : curLen < r.size) :
    (sendStep l r env).err = none ∧
    (sendStep l r env).ledger = markSent l r.relative_path ∧
    (sendStep l r env).sentBytes = curLen - off ∧
    (sendStep l r env).sentBytes < r.size - off := by
  have hmin : min (r.size - off) (curLen - off) = curLen - off :=
    min_eq_right (Nat.sub_le_sub_right hshort.le off)
  have hlt : curLen - off < r.size - off := Nat.sub_lt_sub_right hoff hshort
  simp [sendStep, hexc, hdisk, hdir, hresp, hmin, hlt]

/-- Witness for C10: ledger size 10, on-disk size 4, offset 3: the sender
streams 1 byte (EOF short of the 7 expected) and still marks Sent. -/
theorem resume_no_size_check_marks_sent_witness :
    (⟨false, some 4, ServerResponse.resume 3⟩ : RecEnv).excluded = false ∧
    (⟨false, some 4, ServerResponse.resume 3⟩ : RecEnv).onDisk = some 4 ∧
    (⟨"a.txt", 10, false⟩ : FileRecord).is_dir = false ∧
    (⟨false, some 4, ServerResponse.resume 3⟩ : RecEnv).response =
      ServerResponse.resume 3 ∧
    (3 : Nat) ≤ 4 ∧ (4 : Nat) < 10 ∧
    ((sendStep (fun _ => some Status.pending) ⟨"a.txt", 10, false⟩
        ⟨false, some 4, ServerResponse.resume 3⟩).err = none ∧
    (sendStep (fun _ => some Status.pending) ⟨"a.txt", 10, false⟩
        ⟨false, some 4, ServerResponse.resume 3⟩).ledger =
      markSent (fun _ => some Status.pending) "a.txt" ∧
    (sendStep (fun _ => some Status.pending) ⟨"a.txt", 10, false⟩
        ⟨false, some 4, ServerResponse.resume 3⟩).sentBytes = 4 - 3 ∧
    (sendStep (fun _ => some Status.pending) ⟨"a.txt", 10, false⟩
        ⟨false, some 4, ServerResponse.resume 3⟩).sentBytes < 10 - 3) :=
  ⟨rfl, rfl, rfl, rfl, by decide, by decide,
    resume_no_size_check_marks_sent _ _ _ 4 3 rfl rfl rfl rfl
      (by decide) (by decide)⟩

theorem sendStep_ledger_other (l : Ledger) (r : FileRecord) (env : RecEnv)
    (q : String) (h : q ≠ r.relative_path) :
    (sendStep l r env).ledger q = l q := by
  rcases sendStep_ledger_eq l r env with he | he | he
  · rw [he]
  · rw [he]; exact markSent_apply_ne _ _ _ h
  · rw [he]; exact markSkipped_apply_ne _ _ _ h

theorem sendStep_ledger_self (l : Ledger) (r : FileRecord) (env : RecEnv)
    (h : l r.relative_path = some Status.pending) :
    (sendStep l r env).ledger r.relative_path = some Status.pending ∨
    (sendStep l r env).ledger r.relative_path = some Status.sent ∨
    (sendStep l r env).ledger r.relative_path = some Status.skipped := by
  rcases sendStep_ledger_eq l r env with he | he | he
  · rw [he, h]; exact Or.inl rfl
  · rw [he, markSent_apply_self, h]; exact Or.inr (Or.inl rfl)
  · rw [he, markSkipped_apply_self, h]; exact Or.inr (Or.inr rfl)

/-- C9: within one send-phase run over the pending records (distinct
relative paths, each Pending in the initial ledger, as `get_pending_files`
guarantees), every ledger row either keeps its initial status or moves
from Pending to Sent or to Skipped; no operation of the run moves a row
out of Sent or Skipped, and nothing inside the run ever produces Pending
from a non-Pending row (`resetLedger`, the explicit reset used by the
Restart verb, is the only way back). -/
theorem ledger_status_monotone (recs : List (FileRecord × RecEnv))
    (l : Ledger)
    (hpend : ∀ re ∈ recs, l re.1.relative_path = some Status.pending)
    (hnodup : (recs.map (fun re => re.1.relative_path)).Nodup)
    (p : String) :
    (sendRun l recs).ledger p = l p ∨
      (l p = some Status.pending ∧
        ((sendRun l recs).ledger p = some Status.sent ∨
         (sendRun l recs).ledger p = some Status.skipped)) := by
  induction recs generalizing l with
  | nil => exact Or.inl rfl
  | cons re rest ih =>
      obtain ⟨r, env⟩ := re
      obtain ⟨hnotmem, hnodup'⟩ := List.nodup_cons.mp hnodup
      have hheadp : l r.relative_path = some Status.pending :=
        hpend (r, env) (List.mem_cons_self _ _)
      have hother : ∀ q, q ≠ r.relative_path →
          (sendStep l r env).ledger q = l q :=
        fun q hq => sendStep_ledger_other l r env q hq
      have hstep : (sendStep l r env).ledger p = l p ∨
          (l p = some Status.pending ∧
            ((sendStep l r env).ledger p = some Status.sent ∨
             (sendStep l r env).ledger p = some Status.skipped)) := by
        by_cases hp : p = r.relative_path
        · subst hp
          rcases sendStep_ledger_self l r env hheadp with h | h | h
          · exact Or.inl (h.trans hheadp.symm)
          · exact Or.inr ⟨hheadp, Or.inl h⟩
          · exact Or.inr ⟨hheadp, Or.inr h⟩
        · exact Or.inl (hother p hp)
      cases herr : (sendStep l r env).err with
      | some e =>
          have hrun : (sendRun l ((r, env) :: rest)).ledger =
              (sendStep l r env).ledger := by
            simp [sendRun, herr]
          rw [hrun]
          exact hstep
      | none =>
          have hrun : sendRun l ((r, env) :: rest) =
              sendRun (sendStep l r env).ledger rest := by
            simp [sendRun, herr]
          rw [hrun]
          have hrestp : ∀ re2 ∈ rest,
              (sendStep l r env).ledger re2.1.relative_path =
                some Status.pending := by
            intro re2 hmem
            have hne : re2.1.relative_path ≠ r.relative_path := by
              intro hh
              have hin : re2.1.relative_path ∈
                  rest.map (fun re => re.1.relative_path) :=
                List.mem_map_of_mem _ hmem
              rw [hh] at hin
              exact hnotmem hin
            rw [hother _ hne]
            exact hpend re2 (List.mem_cons_of_mem _ hmem)
          rcases ih (sendStep l r env).ledger hrestp hnodup' with h2 | ⟨h2a, h2b⟩
          · rw [h2]
            exact hstep
          · right
            refine ⟨?_, h2b⟩
            rcases hstep with h3 | ⟨h3, _⟩
            · rw [← h3]; exact h2a
            · exact h3

/-- Witness for C9: a one-record run (Pending record, `Send` response,
sizes matching) whose row moves from Pending to Sent. -/
theorem ledger_status_monotone_witness :
    (∀ re ∈ ([(⟨"a.txt", 5, false⟩, ⟨false, some 5, ServerResponse.send⟩)] :
        List (FileRecord × RecEnv)),
      (fun q => if q = "a.txt" then some Status.pending else none)
        re.1.relative_path = some Status.pending) ∧
    (([(⟨"a.txt", 5, false⟩, ⟨false, some 5, ServerResponse.send⟩)] :
        List (FileRecord × RecEnv)).map
      (fun re => re.1.relative_path)).Nodup ∧
    ((sendRun (fun q => if q = "a.txt" then some Status.pending else none)
        [(⟨"a.txt", 5, false⟩, ⟨false, some 5, ServerResponse.send⟩)]).ledger
          "a.txt" =
        (fun q => if q = "a.txt" then some Status.pending else none) "a.txt" ∨
      ((fun q => if q = "a.txt" then some Status.pending else none) "a.txt" =
          some Status.pending ∧
        ((sendRun (fun q => if q = "a.txt" then some Status.pending else none)
            [(⟨"a.txt", 5, false⟩, ⟨false, some 5, ServerResponse.send⟩)]).ledger
              "a.txt" = some Status.sent ∨
         (sendRun (fun q => if q = "a.txt" then some Status.pending else none)
            [(⟨"a.txt", 5, false⟩, ⟨false, some 5, ServerResponse.send⟩)]).ledger
              "a.txt" = some Status.skipped))) :=
  ⟨by decide, by decide,
    ledger_status_monotone _ _ (by decide) (by decide) "a.txt"⟩

end Send
